import Mathlib

/-!
Shallow embedding of the session-credential lifecycle implemented in
`login.py` of the `link_boost_ujjawal` repository: the credential store
(`_read_session_cookie_from_disk`, `_write_session_cookie_to_disk`,
`_delete_cookie_file_if_exists`), the challenge waiter
(`_handle_challenge_if_present`), the cookie-login attempt
(`_try_cookie_login`) and the orchestrator (`login_and_get_driver`).

Modelling conventions:
* JSON numbers are modelled as integers (the only numeric field the code
  inspects, `expiry`, is an epoch-seconds value truncated with `int(...)`);
  Python booleans pass `isinstance(x, (int, float))` because `bool` is an
  `int` subclass, which `numValue` reflects.
* The cryptography library calls (base64 decoding, PBKDF2 key derivation,
  AES-GCM authenticated decryption, UTF-8 decoding and `json.loads` of the
  recovered plaintext) are an oracle (`CryptoModel`); `none` models the call
  raising. All theorems about the store quantify over the oracle.
* Browser-driver interactions are oracles as well: each flag of
  `CookieBrowser` / `CredBrowser` records whether the corresponding driver
  call returns normally (`false` = it raises), and `UrlTrace` gives the
  successive values of `driver.current_url`.
* File-system writes that the source performs are reflected in the returned
  `Disk`; `_read_session_cookie_from_disk` performs no writes in the source,
  so its embedding returns no `Disk` (it does return the possibly-updated
  process environment, because `load_dotenv()` mutates it).
-/

namespace LinkBoost

/-- JSON values as stored in the cookie files. -/
inductive JVal where
  | null
  | bool (b : Bool)
  | num (n : Int)
  | str (s : String)
  | arr (elems : List JVal)
  | obj (fields : List (String × JVal))
deriving Repr

/-- Python `dict.get(k)` on the field list of a JSON object: `none` when the
key is missing. -/
def jsonLookup (fields : List (String × JVal)) (k : String) : Option JVal :=
  (fields.find? (fun p => p.fst == k)).map Prod.snd

/-- Mirrors `isinstance(x, (int, float))` followed by `int(x)`; Python
booleans are `int` subclasses with values 0 and 1. -/
def numValue : JVal → Option Int
  | JVal.num n => some n
  | JVal.bool b => some (if b then 1 else 0)
  | _ => none

/-- Python exceptions that can escape `_read_session_cookie_from_disk`:
calling `.get` on a non-dict value (line 152) raises `AttributeError`. -/
inductive PyErr where
  | attributeError
deriving Repr, DecidableEq

/-- Contents of a file on disk: either unreadable / not valid JSON
(`malformed`), or a JSON document. -/
inductive FileContent where
  | malformed
  | json (v : JVal)
deriving Repr

/-- Behaviour of `json.load` on an opened file: raises (`none`) on malformed
content, yields the document otherwise. -/
def parseFile : FileContent → Option JVal
  | FileContent.malformed => none
  | FileContent.json v => some v

/-- The three on-disk files `login.py` touches: `cookies.json.encrypted`,
the alternative name `cookies.json.encrypt`, and the plaintext
`cookies.json`. `none` means the file does not exist. -/
structure Disk where
  encrypted : Option FileContent
  encryptedAlt : Option FileContent
  plaintext : Option FileContent
deriving Repr

/-- Line 124: `next((p for p in ENCRYPTED_COOKIE_FILES if os.path.exists(p)),
None)` — the first existing encrypted file, in list order. -/
def encryptedTarget (d : Disk) : Option FileContent :=
  match d.encrypted with
  | some fc => some fc
  | none => d.encryptedAlt

/-- Process environment variables read by `login.py`; `none` means unset. -/
structure Env where
  decryptKey : Option String
  email : Option String
  password : Option String
deriving Repr, DecidableEq

/-- Variables supplied by the `.env` file consumed by `load_dotenv()`. -/
structure DotenvFile where
  decryptKey : Option String
  email : Option String
  password : Option String
deriving Repr, DecidableEq

/-- Behaviour of `load_dotenv()`: each variable is filled from the `.env` file
only when it is not already present in the process environment (python-dotenv
default `override=False`). -/
def loadDotenv (f : DotenvFile) (e : Env) : Env :=
  { decryptKey := e.decryptKey.orElse (fun _ => f.decryptKey)
    email := e.email.orElse (fun _ => f.email)
    password := e.password.orElse (fun _ => f.password) }

/-- Python truthiness of an optional environment string (`if key:` /
`if not email`): unset and empty strings are falsy. -/
def truthy : Option String → Bool
  | none => false
  | some s => !s.isEmpty

/-- Oracle for the cryptography library calls of the encrypted branch.
`b64decode v = none` models `base64.b64decode` raising (non-string argument
or invalid base64); `decrypt key s n ct` bundles PBKDF2 derivation, AES-GCM
decryption, UTF-8 decoding and `json.loads`, with `none` modelling any of
them raising (in particular an authentication-tag mismatch). -/
structure CryptoModel where
  b64decode : JVal → Option (List Nat)
  decrypt : String → List Nat → List Nat → List Nat → Option JVal

/-- Lines 131–133: `base64.b64decode(payload.get(k, ""))` — a missing key
decodes the default empty string to empty bytes; otherwise the oracle
decides. -/
def b64Field (cm : CryptoModel) (v : Option JVal) : Option (List Nat) :=
  match v with
  | none => some []
  | some x => cm.b64decode x

/-- Data computation of lines 127–139, the `try` block that attempts the
encrypted cookie file: any exception inside it leaves `data = None`
(`none`), as does an unset or empty `DECRYPT_KEY` or empty salt / nonce /
ciphertext fields. -/
def readEncryptedData (cm : CryptoModel) (key? : Option String)
    (fc : FileContent) : Option JVal :=
  match key? with
  | none => none
  | some key =>
    if key.isEmpty then none
    else
      match parseFile fc with
      | some (JVal.obj fields) =>
        match b64Field cm (jsonLookup fields ("s")),
            b64Field cm (jsonLookup fields ("n")),
            b64Field cm (jsonLookup fields ("ct")) with
        | some s, some n, some ct =>
          if s.isEmpty || n.isEmpty || ct.isEmpty then none
          else cm.decrypt key s n ct
        | _, _, _ => none
      | _ => none

/-- Whole encrypted branch, threading the environment: when an encrypted file
exists, `load_dotenv()` runs and `DECRYPT_KEY` is looked up in the updated
environment. -/
def readEncrypted (cm : CryptoModel) (f : DotenvFile) (e : Env) (d : Disk) :
    Option JVal × Env :=
  match encryptedTarget d with
  | none => (none, e)
  | some fc =>
    (readEncryptedData cm (loadDotenv f e).decryptKey fc, loadDotenv f e)

/-- Cookie name constant `SESSION_COOKIE_NAME = "li_at"`. -/
def sessionCookieName : String := "li_at"

/-- Lines 152–165: `cookie = data.get(SESSION_COOKIE_NAME)` raises
`AttributeError` when `data` is not a dict; a missing / non-dict cookie or a
cookie without the `value` key yields `(None, False)`; otherwise the expiry
is classified against the current time (`(cookie, True)` when
`int(expiry) <= now`). -/
def extractCookie (now : Int) (data : JVal) : Except PyErr (Option JVal × Bool) :=
  match data with
  | JVal.obj fields =>
    match jsonLookup fields sessionCookieName with
    | some (JVal.obj cfields) =>
      if (jsonLookup cfields ("value")).isSome then
        match (jsonLookup cfields ("expiry")).bind numValue with
        | some ex =>
          if ex ≤ now then Except.ok (some (JVal.obj cfields), true)
          else Except.ok (some (JVal.obj cfields), false)
        | none => Except.ok (some (JVal.obj cfields), false)
      else Except.ok (none, false)
    | _ => Except.ok (none, false)
  | _ => Except.error PyErr.attributeError

/-- `_read_session_cookie_from_disk` (lines 116–165). The plaintext file is
read whenever the encrypted branch produced no data; a missing or unparsable
plaintext file yields `(None, False)`. The second component is the process
environment after the call. The source performs no file writes here, so the
disk is unchanged by construction. -/
def readSessionCookie (cm : CryptoModel) (f : DotenvFile) (now : Int) (e : Env)
    (d : Disk) : Except PyErr (Option JVal × Bool) × Env :=
  match readEncrypted cm f e d with
  | (some data, e2) => (extractCookie now data, e2)
  | (none, e2) =>
    match d.plaintext with
    | none => (Except.ok (none, false), e2)
    | some fc =>
      match parseFile fc with
      | none => (Except.ok (none, false), e2)
      | some data => (extractCookie now data, e2)

/-- Data value that reaches line 152, if any: the decrypted blob when the
encrypted branch succeeds, else the parsed plaintext file. -/
def dataOf (cm : CryptoModel) (f : DotenvFile) (e : Env) (d : Disk) : Option JVal :=
  match readEncrypted cm f e d with
  | (some v, _) => some v
  | (none, _) => d.plaintext.bind parseFile

/-- Operator response to the interactive `input()` prompt of
`_write_session_cookie_to_disk`; an exception from `input()` is converted to
the empty answer (lines 177–180). -/
inductive Answer where
  | typed (s : String)
  | ioFailure
deriving Repr, DecidableEq

/-- Effective answer string after the `except` fallback. -/
def answerString : Answer → String
  | Answer.typed s => s
  | Answer.ioFailure => ""

/-- Line 181: `str(answer).strip().lower() in {"y", "yes"}`. -/
def confirmsPlaintext (a : Answer) : Bool :=
  let s := (answerString a).trim.toLower
  s == "y" || s == "yes"

/-- `_write_session_cookie_to_disk` (lines 168–189): refuses to write when any
encrypted cookie file exists; otherwise asks the operator and writes the
payload `{SESSION_COOKIE_NAME: cookie, "saved_at": ...}` only on a yes
answer. The final `json.dump` is modelled as succeeding — an I/O failure
there is swallowed by the outer `try` and touches no other file either way. -/
def writeSessionCookie (a : Answer) (cookie : JVal) (savedAt : String)
    (d : Disk) : Disk :=
  if d.encrypted.isSome || d.encryptedAlt.isSome then d
  else if confirmsPlaintext a then
    { d with plaintext := some (FileContent.json (JVal.obj
        [(sessionCookieName, cookie), (("saved_at"), JVal.str savedAt)])) }
  else d

/-- `_delete_cookie_file_if_exists` (lines 192–204): best-effort removal of
the plaintext file only; both blocks remove only `COOKIE_FILE`. -/
def deleteCookieFile (d : Disk) : Disk :=
  { d with plaintext := none }

/-- URL constant `CHALLENGE_PREFIX` of line 28. -/
def challengeUrlV1 : String := "https://www.linkedin.com/checkpoint/challenge"

/-- URL constant `CHALLENGE_V2_PREFIX` of line 29. -/
def challengeUrlV2 : String := "https://www.linkedin.com/checkpoint/challengesV2/"

/-- Line 211 / line 228: the current URL matches a challenge page —
`current.startswith(CHALLENGE_PREFIX) or
current.startswith(CHALLENGE_V2_PREFIX)`, modelled as a character-list
prefix test. -/
def isChallengeUrl (u : String) : Bool :=
  List.isPrefixOf challengeUrlV1.data u.data
    || List.isPrefixOf challengeUrlV2.data u.data

/-- Successive values of `driver.current_url`: index 0 is the read before the
loop (line 210); the loop reads indices 1, 2, … after one 2-second sleep
each. `none` models the read raising, which the loop skips via `continue`. -/
abbrev UrlTrace := Nat → Option String

/-- Whether the poll at index `k` would break the loop: the URL read succeeds
and no longer matches a challenge prefix. -/
def clearsAt (trace : UrlTrace) (k : Nat) : Bool :=
  match trace k with
  | some u => !isChallengeUrl u
  | none => false

/-- Loop of lines 218–229: sleep 2 seconds, re-read the URL (`continue` on an
exception), break once it no longer matches a challenge prefix. Returns the
poll index at which the loop breaks, `none` when still waiting after `fuel`
further polls — the source itself has no bound. -/
def challengeLoop (trace : UrlTrace) : Nat → Nat → Option Nat
  | 0, _ => none
  | fuel + 1, k =>
    match trace k with
    | none => challengeLoop trace fuel (k + 1)
    | some u =>
      if isChallengeUrl u then challengeLoop trace fuel (k + 1)
      else some k

/-- `_handle_challenge_if_present` (lines 207–238). Result `some k` means
control returns after exactly `k` polls, i.e. 2·k seconds of sleeping at the
fixed 2-second interval (`some 0`: the initial URL was not a challenge page
and no poll ran). The trailing wait for the `global-nav` landmark
(lines 231–234) is best-effort and its timeout is swallowed; the outer `try`
(lines 209, 236–238) means no exception ever escapes. -/
def handleChallenge (trace : UrlTrace) (fuel : Nat) : Option Nat :=
  match trace 0 with
  | none => some 0
  | some u =>
    if isChallengeUrl u then challengeLoop trace fuel 1
    else some 0

/-- Outcomes of the browser-driver calls inside `_try_cookie_login`'s `try`
block (lines 256–308); each flag records whether the call returns without
raising. `landmarkFound` is whether one of the three profile XPaths is
located with the expected text (lines 283–308). -/
structure CookieBrowser where
  navBaseOk : Bool
  addCookieOk : Bool
  addCookieRetryOk : Bool
  navHomeOk : Bool
  currentUrlOk : Bool
  landmarkFound : Bool
deriving Repr, DecidableEq

/-- Result of `_try_cookie_login` (lines 241–312): whether an exception
escaped (`raised` — only the unguarded `_read_session_cookie_from_disk` call
of line 245 can raise), whether the attempt succeeded, whether
`driver.add_cookie` was attempted with the stored token (`injected`), and the
process environment / disk afterwards. -/
structure CookieAttemptResult where
  raised : Option PyErr
  success : Bool
  injected : Bool
  env : Env
  disk : Disk
deriving Repr

/-- Browser part of `_try_cookie_login`'s `try` block (lines 256–308), run
once a valid stored token is in hand: navigate to the base URL, attempt
`add_cookie` (with a retry without the domain attribute, line 270–274),
navigate to the feed, read the current URL for the log line, then probe the
three landmark XPaths. Returns (success, injected); any raising step turns
the attempt into a failure (outer `except` of lines 310–312). -/
def cookieBrowserAttempt (b : CookieBrowser) : Bool × Bool :=
  if !b.navBaseOk then (false, false)
  else if !(b.addCookieOk || b.addCookieRetryOk) then (false, true)
  else if !b.navHomeOk then (false, true)
  else if !b.currentUrlOk then (false, true)
  else (b.landmarkFound, true)

/-- `_try_cookie_login` (lines 241–312). An expired token is deleted and the
attempt fails without any injection; an absent token fails likewise; with a
valid token the browser steps run inside a `try` whose every exception turns
into `False`. The challenge handler (line 278) never raises and is modelled
as returning. -/
def tryCookieLogin (cm : CryptoModel) (f : DotenvFile) (now : Int)
    (b : CookieBrowser) (e : Env) (d : Disk) : CookieAttemptResult :=
  match readSessionCookie cm f now e d with
  | (Except.error err, e2) =>
    { raised := some err, success := false, injected := false, env := e2, disk := d }
  | (Except.ok (cookie, expired), e2) =>
    if expired then
      { raised := none, success := false, injected := false, env := e2,
        disk := deleteCookieFile d }
    else
      match cookie with
      | none =>
        { raised := none, success := false, injected := false, env := e2, disk := d }
      | some _ =>
        { raised := none, success := (cookieBrowserAttempt b).1,
          injected := (cookieBrowserAttempt b).2, env := e2, disk := d }

/-- Outcomes of the browser-driver calls of the credential branch of
`login_and_get_driver` (lines 365–403); each `Ok` flag covers the navigation
or element wait together with the subsequent interaction (clear / send_keys /
click), any of which raising reaches the outer `except`. `landmarkAppears` is
whether the `global-nav` landmark wait of line 400 succeeds; `freshCookie` is
the `to_store` dict assembled by `_save_current_session_cookie` when the
session cookie is present in the jar (`none`: absent, or reading the jar
raised). -/
structure CredBrowser where
  navLoginOk : Bool
  emailFieldOk : Bool
  passwordFieldOk : Bool
  signInOk : Bool
  landmarkAppears : Bool
  freshCookie : Option JVal
deriving Repr

/-- Terminal outcome of `login_and_get_driver`. -/
inductive LoginOutcome where
  | returned
  | missingCreds
  | wrappedFailure
  | uncaughtError (e : PyErr)
deriving Repr, DecidableEq

/-- Observable result of `login_and_get_driver`: the terminal outcome,
whether `driver.quit()` ran, whether the credential configuration
(EMAIL / PASSWORD) was read, whether the stored token was injected via
`add_cookie`, whether the post-login landmark verification succeeded on the
path taken, and the final environment and disk. -/
structure OrchResult where
  outcome : LoginOutcome
  quitCalled : Bool
  credsRead : Bool
  injected : Bool
  landmarkVerified : Bool
  env : Env
  disk : Disk
deriving Repr

/-- `_save_current_session_cookie` (lines 315–335): best-effort; when the
session cookie was captured it is handed to the store's write, otherwise
nothing happens; never raises. -/
def saveCurrentSessionCookie (a : Answer) (fresh : Option JVal)
    (savedAt : String) (d : Disk) : Disk :=
  match fresh with
  | some c => writeSessionCookie a c savedAt d
  | none => d

/-- Credential branch of `login_and_get_driver` (lines 365–414), returning
(outcome, quitCalled, landmarkVerified, disk). The post-login landmark wait
(lines 399–402) sits in an inner `try` whose timeout is swallowed
(`except: time.sleep(3)`), so `landmarkAppears` never influences control
flow; only the preceding navigation / form steps can reach the outer
`except`, which quits the driver and raises the wrapped `RuntimeError`
(lines 409–414). On the returning path the fresh session cookie is saved
best-effort (line 405). -/
def credentialPhase (cb : CredBrowser) (a : Answer) (savedAt : String)
    (d : Disk) : LoginOutcome × Bool × Bool × Disk :=
  if !cb.navLoginOk || !cb.emailFieldOk || !cb.passwordFieldOk || !cb.signInOk then
    (LoginOutcome.wrappedFailure, true, false, d)
  else
    (LoginOutcome.returned, false, cb.landmarkAppears,
      saveCurrentSessionCookie a cb.freshCookie savedAt d)

/-- `login_and_get_driver` (lines 338–414). The cookie attempt runs first
(line 350, not inside any `try`: an exception escaping it propagates without
quitting the driver); on success the driver is returned at once. Otherwise
`load_dotenv()` runs again and EMAIL / PASSWORD are read (lines 354–356); if
either is falsy the driver is quit and the missing-credentials error raised
(lines 358–363); else the credential branch runs. The driver build itself
(line 346) is modelled as succeeding. -/
def loginAndGetDriver (cm : CryptoModel) (f : DotenvFile) (now : Int)
    (b : CookieBrowser) (cb : CredBrowser) (a : Answer) (savedAt : String)
    (e : Env) (d : Disk) : OrchResult :=
  let r := tryCookieLogin cm f now b e d
  match r.raised with
  | some err =>
    { outcome := LoginOutcome.uncaughtError err, quitCalled := false,
      credsRead := false, injected := r.injected, landmarkVerified := false,
      env := r.env, disk := r.disk }
  | none =>
    if r.success then
      { outcome := LoginOutcome.returned, quitCalled := false,
        credsRead := false, injected := r.injected, landmarkVerified := true,
        env := r.env, disk := r.disk }
    else
      let e2 := loadDotenv f r.env
      if !truthy e2.email || !truthy e2.password then
        { outcome := LoginOutcome.missingCreds, quitCalled := true,
          credsRead := true, injected := r.injected, landmarkVerified := false,
          env := e2, disk := r.disk }
      else
        match credentialPhase cb a savedAt r.disk with
        | (o, q, lv, d2) =>
          { outcome := o, quitCalled := q, credsRead := true,
            injected := r.injected, landmarkVerified := lv,
            env := e2, disk := d2 }

/-! Concrete fixtures used by counterexamples and witnesses. -/

/-- Crypto oracle on which every library call raises; in concrete states below
the encrypted branch therefore never contributes data (matching a run without
a usable decryption setup). -/
def noCrypto : CryptoModel :=
  { b64decode := fun _ => none, decrypt := fun _ _ _ _ => none }

/-- Empty process environment. -/
def emptyEnv : Env := { decryptKey := none, email := none, password := none }

/-- Empty `.env` file. -/
def emptyDotenv : DotenvFile :=
  { decryptKey := none, email := none, password := none }

/-- Disk with none of the three cookie files. -/
def emptyDisk : Disk := { encrypted := none, encryptedAlt := none, plaintext := none }

/-- A stored session-only cookie dict (has `value`, no `expiry`). -/
def tokCookie : JVal := JVal.obj [(("value"), JVal.str ("tok"))]

/-- Disk whose plaintext token file holds a valid session-only cookie. -/
def diskPlainTok : Disk :=
  { encrypted := none, encryptedAlt := none,
    plaintext := some (FileContent.json
      (JVal.obj [(sessionCookieName, tokCookie)])) }

/-! Shared helper lemmas. -/

/-- An `Except` value with `isOk` set is an `ok`. -/
theorem isOk_exists {ε α : Type} {x : Except ε α} (h : x.isOk = true) :
    ∃ a, x = Except.ok a := by
  cases x with
  | error err => simp [Except.isOk, Except.toBool] at h
  | ok a => exact ⟨a, rfl⟩

/-- `extractCookie` never raises on a JSON object: `.get` exists on dicts and
every subsequent branch returns a pair. -/
theorem extractCookie_obj_isOk (now : Int) (fields : List (String × JVal)) :
    (extractCookie now (JVal.obj fields)).isOk = true := by
  unfold extractCookie
  repeat first
    | rfl
    | split

/-- C2 counterexample: with no encrypted file and a token file containing the
valid JSON document `null`, `json.load` succeeds but `data.get(...)` at line
152 raises `AttributeError`, so `_read_session_cookie_from_disk` raises
instead of returning "no usable token" — the read is not total. -/
theorem read_raises_on_null_token_file :
    (readSessionCookie noCrypto emptyDotenv 0 emptyEnv
      { encrypted := none, encryptedAlt := none,
        plaintext := some (FileContent.json JVal.null) }).1
      = Except.error PyErr.attributeError := rfl

/-- C2 amended: `_read_session_cookie_from_disk` fails closed — returning
`(None, False)` — whenever no token data is obtained at all (missing files,
unreadable or unparsable content, missing or wrong decryption secret, failed
authentication), and it never raises provided the token data it does obtain
is a JSON object; only a file parsing to a non-object JSON value makes it
raise. -/
theorem read_fails_closed_on_object_data (cm : CryptoModel) (f : DotenvFile)
    (now : Int) (e : Env) (d : Disk) :
    (dataOf cm f e d = none →
      (readSessionCookie cm f now e d).1 = Except.ok (none, false)) ∧
    (∀ fields, dataOf cm f e d = some (JVal.obj fields) →
      ∃ res, (readSessionCookie cm f now e d).1 = Except.ok res) := by
  rcases hE : readEncrypted cm f e d with ⟨data, e2⟩
  constructor
  · intro h
    unfold dataOf at h
    rw [hE] at h
    unfold readSessionCookie
    rw [hE]
    cases data with
    | some v => exact absurd h (by simp)
    | none =>
      cases hp : d.plaintext with
      | none => rfl
      | some fc =>
        rw [hp] at h
        simp only [Option.some_bind] at h
        simp [h]
  · intro fields h
    unfold dataOf at h
    rw [hE] at h
    unfold readSessionCookie
    rw [hE]
    cases data with
    | some v =>
      injection h with h
      subst h
      exact isOk_exists (extractCookie_obj_isOk now fields)
    | none =>
      cases hp : d.plaintext with
      | none =>
        rw [hp] at h
        exact absurd h (by simp)
      | some fc =>
        rw [hp] at h
        simp only [Option.some_bind] at h
        simp only [hp, h]
        exact isOk_exists (extractCookie_obj_isOk now fields)

/-- C2 amended witness: on a disk with no files at all, no data is obtained
and read returns "no usable token". -/
theorem read_fails_closed_on_object_data_witness :
    (readSessionCookie noCrypto emptyDotenv 0 emptyEnv emptyDisk).1
      = Except.ok (none, false) :=
  (read_fails_closed_on_object_data noCrypto emptyDotenv 0 emptyEnv emptyDisk).1 rfl

/-- C3: whenever an encrypted token blob file exists (under either name),
`_write_session_cookie_to_disk` returns with the disk completely unchanged —
in particular it neither creates nor overwrites the plaintext token file —
regardless of the operator's answer to the prompt. -/
theorem write_refused_when_encrypted_exists (a : Answer) (c : JVal)
    (t : String) (d : Disk)
    (h : d.encrypted.isSome = true ∨ d.encryptedAlt.isSome = true) :
    writeSessionCookie a c t d = d := by
  unfold writeSessionCookie
  rcases h with h | h <;> simp [h]

/-- C3 witness: a disk holding an encrypted blob, an operator who answers
"yes": the write still changes nothing. -/
theorem write_refused_when_encrypted_exists_witness :
    writeSessionCookie (Answer.typed ("yes")) tokCookie ("2026-10-12T00:00:00Z")
      { encrypted := some FileContent.malformed, encryptedAlt := none,
        plaintext := none }
      = { encrypted := some FileContent.malformed, encryptedAlt := none,
          plaintext := none } :=
  write_refused_when_encrypted_exists _ _ _ _ (Or.inl rfl)

/-- Changing only the plaintext token file does not change what the encrypted
branch does (it inspects only the two encrypted paths). -/
theorem readEncrypted_set_plaintext (cm : CryptoModel) (f : DotenvFile)
    (e : Env) (d : Disk) (p : Option FileContent) :
    readEncrypted cm f e { d with plaintext := p } = readEncrypted cm f e d := rfl

/-- C4 counterexample: an encrypted blob exists and the decryption secret is
absent everywhere, yet read returns the cookie found in the plaintext token
file — not "no usable token", and the plaintext file was consulted although
an encrypted blob exists. -/
theorem read_consults_plaintext_despite_blob :
    (encryptedTarget
      { encrypted := some (FileContent.json (JVal.obj [])),
        encryptedAlt := none,
        plaintext := some (FileContent.json
          (JVal.obj [(sessionCookieName, tokCookie)])) }).isSome = true ∧
    emptyEnv.decryptKey = none ∧ emptyDotenv.decryptKey = none ∧
    (readSessionCookie noCrypto emptyDotenv 0 emptyEnv
      { encrypted := some (FileContent.json (JVal.obj [])),
        encryptedAlt := none,
        plaintext := some (FileContent.json
          (JVal.obj [(sessionCookieName, tokCookie)])) }).1
      = Except.ok (some tokCookie, false) :=
  ⟨rfl, rfl, rfl, rfl⟩

/-- C4 amended: the encrypted branch yields no data whenever the decryption
secret is absent (or every decryption attempt fails); read then falls back to
the plaintext token file whether or not an encrypted blob exists — the
plaintext file is ignored exactly when the encrypted branch succeeds — and
"no usable token" results only when the fallback also yields nothing (here:
no plaintext file). -/
theorem read_fallback_characterization (cm : CryptoModel) (f : DotenvFile)
    (now : Int) (e : Env) (d : Disk) :
    ((loadDotenv f e).decryptKey = none → (readEncrypted cm f e d).1 = none) ∧
    ((∀ k s n c, cm.decrypt k s n c = none) → (readEncrypted cm f e d).1 = none) ∧
    (∀ v e2, readEncrypted cm f e d = (some v, e2) →
      ∀ p, (readSessionCookie cm f now e { d with plaintext := p }).1
        = (readSessionCookie cm f now e d).1) ∧
    ((readEncrypted cm f e d).1 = none → d.plaintext = none →
      (readSessionCookie cm f now e d).1 = Except.ok (none, false)) := by
  refine ⟨?_, ?_, ?_, ?_⟩
  · intro h
    unfold readEncrypted
    cases ht : encryptedTarget d with
    | none => rfl
    | some fc => simp [h, readEncryptedData]
  · intro h
    unfold readEncrypted
    cases ht : encryptedTarget d with
    | none => rfl
    | some fc =>
      simp only []
      cases hk : (loadDotenv f e).decryptKey with
      | none => rfl
      | some key =>
        unfold readEncryptedData
        repeat first
          | rfl
          | rw [h]
          | split
  · intro v e2 hE p
    unfold readSessionCookie
    rw [readEncrypted_set_plaintext, hE]
  · intro h hp
    unfold readSessionCookie
    rcases hE : readEncrypted cm f e d with ⟨data, e2⟩
    rw [hE] at h
    simp only [] at h
    subst h
    rw [hp]

/-- C4 amended witness: with the decryption secret absent, the encrypted
branch of a blob-holding disk yields nothing. -/
theorem read_fallback_characterization_witness :
    (readEncrypted noCrypto emptyDotenv emptyEnv
      { encrypted := some FileContent.malformed, encryptedAlt := none,
        plaintext := none }).1 = none :=
  (read_fallback_characterization noCrypto emptyDotenv 0 emptyEnv
    { encrypted := some FileContent.malformed, encryptedAlt := none,
      plaintext := none }).1 rfl

/-- A singleton JSON object maps its key to its value. -/
theorem jsonLookup_single (k : String) (v : JVal) :
    jsonLookup [(k, v)] k = some v := by
  simp [jsonLookup, List.find?]

/-- Expired stored token: `_try_cookie_login` deletes the file and fails the
attempt without ever reaching `add_cookie`. -/
theorem tryCookieLogin_expired (cm : CryptoModel) (f : DotenvFile) (now : Int)
    (b : CookieBrowser) (e : Env) (d : Disk) (c : JVal)
    (h : (readSessionCookie cm f now e d).1 = Except.ok (some c, true)) :
    tryCookieLogin cm f now b e d =
      { raised := none, success := false, injected := false,
        env := (readSessionCookie cm f now e d).2, disk := deleteCookieFile d } := by
  unfold tryCookieLogin
  rcases hR : readSessionCookie cm f now e d with ⟨res, e2⟩
  rw [hR] at h
  simp only [] at h
  subst h
  rfl

/-- The orchestrator propagates `_try_cookie_login`'s injection flag
unchanged on every path. -/
theorem loginAndGetDriver_injected (cm : CryptoModel) (f : DotenvFile)
    (now : Int) (b : CookieBrowser) (cb : CredBrowser) (a : Answer)
    (t : String) (e : Env) (d : Disk) :
    (loginAndGetDriver cm f now b cb a t e d).injected
      = (tryCookieLogin cm f now b e d).injected := by
  unfold loginAndGetDriver
  rcases hT : tryCookieLogin cm f now b e d with ⟨raised, succ, inj, e2, d2⟩
  cases raised with
  | some err => rfl
  | none =>
    cases succ with
    | true => rfl
    | false =>
      simp only []
      split
      · rfl
      · split
        · rfl
        · rcases credentialPhase cb a t d2 with ⟨o, q, lv, d3⟩
          rfl

/-- C5: a stored token carrying a numeric `expiry` at or before the current
time is classified expired (`(cookie, True)`); a stored token with no
`expiry` field is classified valid (`(cookie, False)`); and whenever the read
classifies the stored token expired, neither `_try_cookie_login` nor
`login_and_get_driver` injects it via `add_cookie`. -/
theorem expired_classification_and_no_injection (cm : CryptoModel)
    (f : DotenvFile) (now : Int) (e : Env) (d : Disk) (b : CookieBrowser)
    (cb : CredBrowser) (a : Answer) (t : String)
    (cfields : List (String × JVal)) (ex : Int) :
    ((jsonLookup cfields ("value")).isSome = true →
      (jsonLookup cfields ("expiry")).bind numValue = some ex → ex ≤ now →
      extractCookie now (JVal.obj [(sessionCookieName, JVal.obj cfields)])
        = Except.ok (some (JVal.obj cfields), true)) ∧
    ((jsonLookup cfields ("value")).isSome = true →
      jsonLookup cfields ("expiry") = none →
      extractCookie now (JVal.obj [(sessionCookieName, JVal.obj cfields)])
        = Except.ok (some (JVal.obj cfields), false)) ∧
    (∀ c, (readSessionCookie cm f now e d).1 = Except.ok (some c, true) →
      (tryCookieLogin cm f now b e d).injected = false ∧
      (loginAndGetDriver cm f now b cb a t e d).injected = false) := by
  refine ⟨?_, ?_, ?_⟩
  · intro hv hx hle
    unfold extractCookie
    simp [jsonLookup_single, hv, hx, hle]
  · intro hv hx
    unfold extractCookie
    simp [jsonLookup_single, hv, hx]
  · intro c h
    have hT := tryCookieLogin_expired cm f now b e d c h
    constructor
    · rw [hT]
    · rw [loginAndGetDriver_injected, hT]

/-- C5 witness: a token with `expiry` 5 at time 10 is classified expired; a
token with no expiry is classified valid; on a disk holding the expired
token, the attempt does not inject it. -/
theorem expired_classification_and_no_injection_witness :
    extractCookie 10 (JVal.obj [(sessionCookieName,
        JVal.obj [(("value"), JVal.str ("tok")), (("expiry"), JVal.num 5)])])
      = Except.ok (some (JVal.obj
          [(("value"), JVal.str ("tok")), (("expiry"), JVal.num 5)]), true) ∧
    extractCookie 10 (JVal.obj [(sessionCookieName, tokCookie)])
      = Except.ok (some tokCookie, false) ∧
    (tryCookieLogin noCrypto emptyDotenv 10
      { navBaseOk := true, addCookieOk := true, addCookieRetryOk := true,
        navHomeOk := true, currentUrlOk := true, landmarkFound := true }
      emptyEnv
      { encrypted := none, encryptedAlt := none,
        plaintext := some (FileContent.json (JVal.obj [(sessionCookieName,
          JVal.obj [(("value"), JVal.str ("tok")),
            (("expiry"), JVal.num 5)])])) }).injected = false := by
  refine ⟨?_, ?_, ?_⟩
  · exact (expired_classification_and_no_injection noCrypto emptyDotenv 10
      emptyEnv emptyDisk
      { navBaseOk := true, addCookieOk := true, addCookieRetryOk := true,
        navHomeOk := true, currentUrlOk := true, landmarkFound := true }
      { navLoginOk := true, emailFieldOk := true, passwordFieldOk := true,
        signInOk := true, landmarkAppears := true, freshCookie := none }
      Answer.ioFailure ("t")
      [(("value"), JVal.str ("tok")), (("expiry"), JVal.num 5)] 5).1
      rfl rfl (by decide)
  · exact (expired_classification_and_no_injection noCrypto emptyDotenv 10
      emptyEnv emptyDisk
      { navBaseOk := true, addCookieOk := true, addCookieRetryOk := true,
        navHomeOk := true, currentUrlOk := true, landmarkFound := true }
      { navLoginOk := true, emailFieldOk := true, passwordFieldOk := true,
        signInOk := true, landmarkAppears := true, freshCookie := none }
      Answer.ioFailure ("t") [(("value"), JVal.str ("tok"))] 0).2.1
      rfl rfl
  · exact ((expired_classification_and_no_injection noCrypto emptyDotenv 10
      emptyEnv
      { encrypted := none, encryptedAlt := none,
        plaintext := some (FileContent.json (JVal.obj [(sessionCookieName,
          JVal.obj [(("value"), JVal.str ("tok")),
            (("expiry"), JVal.num 5)])])) }
      { navBaseOk := true, addCookieOk := true, addCookieRetryOk := true,
        navHomeOk := true, currentUrlOk := true, landmarkFound := true }
      { navLoginOk := true, emailFieldOk := true, passwordFieldOk := true,
        signInOk := true, landmarkAppears := true, freshCookie := none }
      Answer.ioFailure ("t") [] 0).2.2
      (JVal.obj [(("value"), JVal.str ("tok")), (("expiry"), JVal.num 5)])
      rfl).1

/-- Cookie browser fixture in which every driver call succeeds and the
landmark text is found. -/
def bAllOk : CookieBrowser :=
  { navBaseOk := true, addCookieOk := true, addCookieRetryOk := true,
    navHomeOk := true, currentUrlOk := true, landmarkFound := true }

/-- Credential browser fixture in which every step succeeds but the
post-login landmark never appears, and no fresh cookie is captured. -/
def credNoLandmark : CredBrowser :=
  { navLoginOk := true, emailFieldOk := true, passwordFieldOk := true,
    signInOk := true, landmarkAppears := false, freshCookie := none }

/-- Environment fixture with credentials configured. -/
def credsEnv : Env :=
  { decryptKey := none, email := some ("user@example.com"),
    password := some ("secret") }

/-- Any `_try_cookie_login` run either fails, or equals the canonical success
record: no exception, injection attempted, disk untouched. -/
theorem tryCookieLogin_cases (cm : CryptoModel) (f : DotenvFile) (now : Int)
    (b : CookieBrowser) (e : Env) (d : Disk) :
    (tryCookieLogin cm f now b e d).success = false ∨
    tryCookieLogin cm f now b e d =
      { raised := none, success := true, injected := (cookieBrowserAttempt b).2,
        env := (readSessionCookie cm f now e d).2, disk := d } := by
  unfold tryCookieLogin
  rcases hR : readSessionCookie cm f now e d with ⟨res, e2⟩
  cases res with
  | error err => exact Or.inl rfl
  | ok pr =>
    rcases pr with ⟨cookie, expired⟩
    cases expired with
    | true => exact Or.inl rfl
    | false =>
      cases cookie with
      | none => exact Or.inl rfl
      | some c =>
        cases hs : (cookieBrowserAttempt b).1 with
        | false => exact Or.inl (by simp [hs])
        | true => exact Or.inr (by simp [hs])

/-- C6: whenever the cookie-login attempt succeeds, `login_and_get_driver`
returns the live session at once: the token file is not re-persisted (the
disk is exactly as before) and the credential configuration (EMAIL /
PASSWORD) is never read. -/
theorem cookie_success_no_write_no_creds (cm : CryptoModel) (f : DotenvFile)
    (now : Int) (b : CookieBrowser) (cb : CredBrowser) (a : Answer)
    (t : String) (e : Env) (d : Disk)
    (h : (tryCookieLogin cm f now b e d).success = true) :
    (tryCookieLogin cm f now b e d).disk = d ∧
    loginAndGetDriver cm f now b cb a t e d =
      { outcome := LoginOutcome.returned, quitCalled := false,
        credsRead := false, injected := (tryCookieLogin cm f now b e d).injected,
        landmarkVerified := true, env := (tryCookieLogin cm f now b e d).env,
        disk := d } := by
  rcases tryCookieLogin_cases cm f now b e d with hc | hc
  · rw [hc] at h
    exact absurd h (by simp)
  · refine ⟨by rw [hc], ?_⟩
    unfold loginAndGetDriver
    rw [hc]
    rfl

/-- C6 witness: a valid session-only token on disk and a fully working
browser make the cookie login succeed; the orchestrator returns with the
disk untouched and the credentials unread. -/
theorem cookie_success_no_write_no_creds_witness :
    (tryCookieLogin noCrypto emptyDotenv 0 bAllOk emptyEnv diskPlainTok).disk
      = diskPlainTok ∧
    loginAndGetDriver noCrypto emptyDotenv 0 bAllOk credNoLandmark
        Answer.ioFailure ("t") emptyEnv diskPlainTok =
      { outcome := LoginOutcome.returned, quitCalled := false,
        credsRead := false,
        injected := (tryCookieLogin noCrypto emptyDotenv 0 bAllOk emptyEnv
          diskPlainTok).injected,
        landmarkVerified := true,
        env := (tryCookieLogin noCrypto emptyDotenv 0 bAllOk emptyEnv
          diskPlainTok).env,
        disk := diskPlainTok } :=
  cookie_success_no_write_no_creds noCrypto emptyDotenv 0 bAllOk credNoLandmark
    Answer.ioFailure ("t") emptyEnv diskPlainTok rfl

/-- C7: when the cookie attempt fails (without raising) and either EMAIL or
PASSWORD is missing from the configuration after `load_dotenv()`, the
orchestrator quits the already-created browser session and raises the
missing-credentials error immediately — no retry, no further browser steps,
no session left open. -/
theorem missing_credentials_fatal (cm : CryptoModel) (f : DotenvFile)
    (now : Int) (b : CookieBrowser) (cb : CredBrowser) (a : Answer)
    (t : String) (e : Env) (d : Disk)
    (hr : (tryCookieLogin cm f now b e d).raised = none)
    (hs : (tryCookieLogin cm f now b e d).success = false)
    (hm : (loadDotenv f (tryCookieLogin cm f now b e d).env).email = none ∨
      (loadDotenv f (tryCookieLogin cm f now b e d).env).password = none) :
    loginAndGetDriver cm f now b cb a t e d =
      { outcome := LoginOutcome.missingCreds, quitCalled := true,
        credsRead := true,
        injected := (tryCookieLogin cm f now b e d).injected,
        landmarkVerified := false,
        env := loadDotenv f (tryCookieLogin cm f now b e d).env,
        disk := (tryCookieLogin cm f now b e d).disk } := by
  unfold loginAndGetDriver
  rcases hT : tryCookieLogin cm f now b e d with ⟨raised, succ, inj, e2, d2⟩
  rw [hT] at hr hs hm
  simp only [] at hr hs hm
  subst hr
  subst hs
  rcases hm with hm | hm <;> simp [hm, truthy]

/-- C7 witness: empty disk (no token anywhere), empty environment and `.env`
file: the cookie attempt fails, EMAIL is missing, and the orchestrator quits
the session and reports missing credentials. -/
theorem missing_credentials_fatal_witness :
    loginAndGetDriver noCrypto emptyDotenv 0 bAllOk credNoLandmark
        Answer.ioFailure ("t") emptyEnv emptyDisk =
      { outcome := LoginOutcome.missingCreds, quitCalled := true,
        credsRead := true,
        injected := (tryCookieLogin noCrypto emptyDotenv 0 bAllOk emptyEnv
          emptyDisk).injected,
        landmarkVerified := false,
        env := loadDotenv emptyDotenv (tryCookieLogin noCrypto emptyDotenv 0
          bAllOk emptyEnv emptyDisk).env,
        disk := (tryCookieLogin noCrypto emptyDotenv 0 bAllOk emptyEnv
          emptyDisk).disk } :=
  missing_credentials_fatal noCrypto emptyDotenv 0 bAllOk credNoLandmark
    Answer.ioFailure ("t") emptyEnv emptyDisk rfl rfl (Or.inl rfl)

/-- C1 counterexample: a credential-login attempt in which navigation, form
filling and the sign-in click all succeed but the post-login landmark
(`global-nav`) never appears. The inner `try` of lines 399–402 swallows the
timeout (`except Exception: time.sleep(3)`), so `login_and_get_driver`
returns the browser session anyway: no error is raised, the session is not
quit, and the landmark verification did not succeed — contradicting the
claim on this input. -/
theorem session_returned_without_landmark :
    credNoLandmark.landmarkAppears = false ∧
    loginAndGetDriver noCrypto emptyDotenv 0 bAllOk credNoLandmark
        Answer.ioFailure ("t") credsEnv emptyDisk =
      { outcome := LoginOutcome.returned, quitCalled := false,
        credsRead := true, injected := false, landmarkVerified := false,
        env := credsEnv, disk := emptyDisk } :=
  ⟨rfl, rfl⟩

/-- C1 amended: during credential login, an exception while navigating to the
login page, locating or filling the credential fields, or clicking sign-in
reaches the outer `except`, which quits the partially-initialized session and
raises the wrapped error; but when those steps all succeed, the orchestrator
returns the session regardless of whether the post-login landmark ever
appeared — the landmark wait's timeout is swallowed and verification does not
gate the return. -/
theorem credential_branch_error_handling (cm : CryptoModel) (f : DotenvFile)
    (now : Int) (b : CookieBrowser) (cb : CredBrowser) (a : Answer)
    (t : String) (e : Env) (d : Disk)
    (hr : (tryCookieLogin cm f now b e d).raised = none)
    (hs : (tryCookieLogin cm f now b e d).success = false)
    (he : truthy (loadDotenv f (tryCookieLogin cm f now b e d).env).email = true)
    (hp : truthy (loadDotenv f (tryCookieLogin cm f now b e d).env).password
      = true) :
    ((cb.navLoginOk && cb.emailFieldOk && cb.passwordFieldOk && cb.signInOk)
        = true →
      (loginAndGetDriver cm f now b cb a t e d).outcome
          = LoginOutcome.returned ∧
      (loginAndGetDriver cm f now b cb a t e d).quitCalled = false ∧
      (loginAndGetDriver cm f now b cb a t e d).landmarkVerified
          = cb.landmarkAppears) ∧
    ((cb.navLoginOk && cb.emailFieldOk && cb.passwordFieldOk && cb.signInOk)
        = false →
      (loginAndGetDriver cm f now b cb a t e d).outcome
          = LoginOutcome.wrappedFailure ∧
      (loginAndGetDriver cm f now b cb a t e d).quitCalled = true) := by
  unfold loginAndGetDriver
  rcases hT : tryCookieLogin cm f now b e d with ⟨raised, succ, inj, e2, d2⟩
  rw [hT] at hr hs he hp
  simp only [] at hr hs he hp
  subst hr
  subst hs
  rcases cb with ⟨n1, n2, n3, n4, lm, fc⟩
  constructor
  · intro hok
    simp only [Bool.and_eq_true] at hok
    obtain ⟨⟨⟨h1, h2⟩, h3⟩, h4⟩ := hok
    subst h1; subst h2; subst h3; subst h4
    simp [he, hp, credentialPhase]
  · intro hbad
    cases n1 <;> cases n2 <;> cases n3 <;> cases n4 <;>
      simp_all [he, hp, credentialPhase]

/-- C1 amended witness: with working form steps and no landmark, the
orchestrator returns the session without quitting, the landmark flag merely
reporting the failure. -/
theorem credential_branch_error_handling_witness :
    (loginAndGetDriver noCrypto emptyDotenv 0 bAllOk credNoLandmark
      Answer.ioFailure ("t") credsEnv emptyDisk).outcome
        = LoginOutcome.returned ∧
    (loginAndGetDriver noCrypto emptyDotenv 0 bAllOk credNoLandmark
      Answer.ioFailure ("t") credsEnv emptyDisk).quitCalled = false ∧
    (loginAndGetDriver noCrypto emptyDotenv 0 bAllOk credNoLandmark
      Answer.ioFailure ("t") credsEnv emptyDisk).landmarkVerified
        = credNoLandmark.landmarkAppears :=
  (credential_branch_error_handling noCrypto emptyDotenv 0 bAllOk
    credNoLandmark Answer.ioFailure ("t") credsEnv emptyDisk
    rfl rfl rfl rfl).1 rfl

/-- The polling loop breaks at exactly the first poll whose URL read succeeds
and no longer matches a challenge prefix, whatever that index is, provided
the fuel bound of the model reaches it (the source loop has no bound at
all). -/
theorem challengeLoop_first_clear (trace : UrlTrace) :
    ∀ (fuel start k : Nat), start ≤ k → k - start < fuel →
      (∀ j, start ≤ j → j < k → clearsAt trace j = false) →
      clearsAt trace k = true →
      challengeLoop trace fuel start = some k := by
  intro fuel
  induction fuel with
  | zero =>
    intro start k h1 h2 _ _
    omega
  | succ fuel ih =>
    intro start k hsk hlt hfirst hk
    by_cases hstart : start = k
    · subst hstart
      unfold clearsAt at hk
      unfold challengeLoop
      cases ht : trace start with
      | none =>
        rw [ht] at hk
        simp at hk
      | some u =>
        rw [ht] at hk
        simp only [Bool.not_eq_true'] at hk
        simp [hk]
    · have hlt2 : start < k := lt_of_le_of_ne hsk hstart
      have hcf : clearsAt trace start = false := hfirst start le_rfl hlt2
      unfold clearsAt at hcf
      unfold challengeLoop
      cases ht : trace start with
      | none =>
        exact ih (start + 1) k hlt2 (by omega)
          (fun j hj1 hj2 => hfirst j (by omega) hj2) hk
      | some u =>
        rw [ht] at hcf
        have hcf2 : (!isChallengeUrl u) = false := hcf
        have hiu : isChallengeUrl u = true := by
          cases hc : isChallengeUrl u
          · rw [hc] at hcf2
            exact absurd hcf2 (by decide)
          · rfl
        show (if isChallengeUrl u = true then
            challengeLoop trace fuel (start + 1) else some start) = some k
        rw [if_pos hiu]
        exact ih (start + 1) k hlt2 (by omega)
          (fun j hj1 hj2 => hfirst j (by omega) hj2) hk

/-- C8: when the initial URL is not a challenge page the waiter returns at
once with zero polls; when it is, then for every index k — with no upper
bound, matching the absence of any outer timeout — if the URL first stops
matching a challenge prefix at poll k, the waiter returns control normally at
exactly poll k, i.e. after k sleeps of the fixed 2-second interval: within
one polling interval of the URL change, and never via a timeout error (the
result type has no error case; the source swallows everything). -/
theorem challenge_waiter_no_timeout (trace : UrlTrace) (u0 : String)
    (k fuel : Nat) :
    (trace 0 = some u0 → isChallengeUrl u0 = false →
      handleChallenge trace fuel = some 0) ∧
    (trace 0 = some u0 → isChallengeUrl u0 = true → 1 ≤ k → k ≤ fuel →
      (∀ j, j < k → 1 ≤ j → clearsAt trace j = false) →
      clearsAt trace k = true →
      handleChallenge trace fuel = some k) := by
  constructor
  · intro h0 hch
    unfold handleChallenge
    rw [h0]
    simp [hch]
  · intro h0 hch h1 hf hfirst hk
    unfold handleChallenge
    rw [h0]
    simp only [hch, if_true]
    exact challengeLoop_first_clear trace fuel 1 k h1 (by omega)
      (fun j hj1 hj2 => hfirst j hj2 hj1) hk

/-- URL trace fixture: the first three reads see the challenge page, from
poll 3 on the browser is back on the feed. -/
def traceEx : UrlTrace := fun k =>
  if k < 3 then some challengeUrlV1
  else some (("https://www.linkedin.com/feed/"))

/-- C8 witness: on `traceEx` the waiter returns after exactly 3 polls
(6 seconds), the first poll after the URL change, with fuel 10 ≥ 3. -/
theorem challenge_waiter_no_timeout_witness :
    handleChallenge traceEx 10 = some 3 :=
  (challenge_waiter_no_timeout traceEx challengeUrlV1 3 10).2
    rfl (by decide) (by decide) (by decide) (by decide) (by decide)

/-- Filling from the `.env` file twice is the same as filling once
(`override=False` semantics). -/
theorem orElse_self_idem {α : Type} (a b : Option α) :
    (a.orElse fun _ => b).orElse (fun _ => b) = a.orElse fun _ => b := by
  cases a <;> cases b <;> rfl

/-- `load_dotenv()` is idempotent on the process environment. -/
theorem loadDotenv_idem (f : DotenvFile) (e : Env) :
    loadDotenv f (loadDotenv f e) = loadDotenv f e := by
  unfold loadDotenv
  simp [orElse_self_idem]

/-- Re-running the encrypted branch from its own post-state environment
reproduces its result. -/
theorem readEncrypted_idem (cm : CryptoModel) (f : DotenvFile) (e : Env)
    (d : Disk) (v : Option JVal) (e2 : Env)
    (h : readEncrypted cm f e d = (v, e2)) :
    readEncrypted cm f e2 d = (v, e2) := by
  unfold readEncrypted at h ⊢
  cases ht : encryptedTarget d with
  | none =>
    rw [ht] at h
    injection h with h1 h2
    subst h1
    subst h2
    rfl
  | some fc =>
    rw [ht] at h
    injection h with h1 h2
    subst h2
    subst h1
    rw [loadDotenv_idem]

/-- The environment returned by read is the one the encrypted branch
produced. -/
theorem readSessionCookie_env (cm : CryptoModel) (f : DotenvFile) (now : Int)
    (e : Env) (d : Disk) :
    (readSessionCookie cm f now e d).2 = (readEncrypted cm f e d).2 := by
  unfold readSessionCookie
  rcases readEncrypted cm f e d with ⟨data, e3⟩
  cases data with
  | some v => rfl
  | none =>
    rcases hp : d.plaintext with _ | fc
    · simp [hp]
    · rcases hq : parseFile fc with _ | v <;> simp [hp, hq]

/-- C9: reading the session cookie is idempotent — from a fixed disk and the
environment state the first call leaves behind, a second call without any
intervening write or delete returns exactly the same result (and the same
environment). The read performs no file writes in the source, which the
embedding reflects by returning no disk: the disk seen by the second call is
unchanged. -/
theorem read_idempotent (cm : CryptoModel) (f : DotenvFile) (now : Int)
    (e : Env) (d : Disk) (res : Except PyErr (Option JVal × Bool)) (e2 : Env)
    (h : readSessionCookie cm f now e d = (res, e2)) :
    readSessionCookie cm f now e2 d = (res, e2) := by
  have henv : (readEncrypted cm f e d).2 = e2 := by
    rw [← readSessionCookie_env cm f now e d, h]
  rcases hE : readEncrypted cm f e d with ⟨data, e3⟩
  rw [hE] at henv
  obtain rfl : e3 = e2 := henv
  have hE2 := readEncrypted_idem cm f e d data _ hE
  unfold readSessionCookie at h ⊢
  rw [hE] at h
  rw [hE2]
  exact h

/-- C9 witness: both consecutive reads of a disk holding a valid plaintext
token return the same active cookie. -/
theorem read_idempotent_witness :
    readSessionCookie noCrypto emptyDotenv 0 emptyEnv diskPlainTok
      = (Except.ok (some tokCookie, false), emptyEnv) :=
  read_idempotent noCrypto emptyDotenv 0 emptyEnv diskPlainTok
    (Except.ok (some tokCookie, false)) emptyEnv rfl

/-- The store's write never touches either encrypted file. -/
theorem writeSessionCookie_encrypted (a : Answer) (c : JVal) (t : String)
    (d : Disk) :
    (writeSessionCookie a c t d).encrypted = d.encrypted ∧
    (writeSessionCookie a c t d).encryptedAlt = d.encryptedAlt := by
  unfold writeSessionCookie
  split
  · exact ⟨rfl, rfl⟩
  · split
    · exact ⟨rfl, rfl⟩
    · exact ⟨rfl, rfl⟩

/-- Best-effort cookie saving never touches either encrypted file. -/
theorem saveCurrentSessionCookie_encrypted (a : Answer) (fresh : Option JVal)
    (t : String) (d : Disk) :
    (saveCurrentSessionCookie a fresh t d).encrypted = d.encrypted ∧
    (saveCurrentSessionCookie a fresh t d).encryptedAlt = d.encryptedAlt := by
  unfold saveCurrentSessionCookie
  cases fresh with
  | none => exact ⟨rfl, rfl⟩
  | some c => exact writeSessionCookie_encrypted a c t d

/-- `_try_cookie_login` leaves the disk unchanged or with only the plaintext
file deleted. -/
theorem tryCookieLogin_disk (cm : CryptoModel) (f : DotenvFile) (now : Int)
    (b : CookieBrowser) (e : Env) (d : Disk) :
    (tryCookieLogin cm f now b e d).disk = d ∨
    (tryCookieLogin cm f now b e d).disk = deleteCookieFile d := by
  unfold tryCookieLogin
  rcases readSessionCookie cm f now e d with ⟨res, e2⟩
  cases res with
  | error err => exact Or.inl rfl
  | ok pr =>
    rcases pr with ⟨cookie, expired⟩
    cases expired with
    | true => exact Or.inr rfl
    | false =>
      cases cookie with
      | none => exact Or.inl rfl
      | some c => exact Or.inl rfl

/-- The credential branch's final disk differs from its input disk at most in
the plaintext file. -/
theorem credentialPhase_disk_encrypted (cb : CredBrowser) (a : Answer)
    (t : String) (d : Disk) :
    ((credentialPhase cb a t d).2.2.2).encrypted = d.encrypted ∧
    ((credentialPhase cb a t d).2.2.2).encryptedAlt = d.encryptedAlt := by
  unfold credentialPhase
  split
  · exact ⟨rfl, rfl⟩
  · exact saveCurrentSessionCookie_encrypted a cb.freshCookie t d

/-- C10: no operation of the credential lifecycle ever creates, modifies or
deletes an encrypted blob file: the store's write preserves both encrypted
files whatever the operator answers, delete removes only the plaintext
`cookies.json`, and both the cookie-login attempt and the full orchestrator
run (cookie login, credential login, token persistence) leave both encrypted
files exactly as they were. The read, whose embedding returns no disk at
all, performs no writes in the source. -/
theorem encrypted_blob_never_touched (cm : CryptoModel) (f : DotenvFile)
    (now : Int) (b : CookieBrowser) (cb : CredBrowser) (a : Answer)
    (t : String) (e : Env) (d : Disk) (c : JVal) :
    ((writeSessionCookie a c t d).encrypted = d.encrypted ∧
      (writeSessionCookie a c t d).encryptedAlt = d.encryptedAlt) ∧
    ((deleteCookieFile d).encrypted = d.encrypted ∧
      (deleteCookieFile d).encryptedAlt = d.encryptedAlt ∧
      (deleteCookieFile d).plaintext = none) ∧
    ((tryCookieLogin cm f now b e d).disk.encrypted = d.encrypted ∧
      (tryCookieLogin cm f now b e d).disk.encryptedAlt = d.encryptedAlt) ∧
    ((loginAndGetDriver cm f now b cb a t e d).disk.encrypted = d.encrypted ∧
      (loginAndGetDriver cm f now b cb a t e d).disk.encryptedAlt
        = d.encryptedAlt) := by
  have htry : (tryCookieLogin cm f now b e d).disk.encrypted = d.encrypted ∧
      (tryCookieLogin cm f now b e d).disk.encryptedAlt = d.encryptedAlt := by
    rcases tryCookieLogin_disk cm f now b e d with hd | hd <;> rw [hd] <;>
      exact ⟨rfl, rfl⟩
  refine ⟨writeSessionCookie_encrypted a c t d, ⟨rfl, rfl, rfl⟩, htry, ?_⟩
  unfold loginAndGetDriver
  rcases hT : tryCookieLogin cm f now b e d with ⟨raised, succ, inj, e2, d2⟩
  rw [hT] at htry
  simp only [] at htry
  cases raised with
  | some err => exact htry
  | none =>
    cases succ with
    | true => exact htry
    | false =>
      simp only []
      split
      · exact htry
      · split
        · exact htry
        · rcases hCP : credentialPhase cb a t d2 with ⟨o, q, lv, d3⟩
          have hcp := credentialPhase_disk_encrypted cb a t d2
          rw [hCP] at hcp
          simp only [] at hcp
          exact ⟨hcp.1.trans htry.1, hcp.2.trans htry.2⟩

end LinkBoost
